import Mathlib

/-!
# BudgetApp — multi-source transaction normalization and deduplication pipeline

A shallow embedding of the ingestion core of the BudgetApp repository:
the source adapters, the category rule engine, the transaction store with
its duplicate check, and the two near-duplicate ingestion pipelines
(`transaction_processor.py` + `load_transactions.py`, and the legacy
`backend.py`).

Conventions of the embedding:
* SQLite values are modelled by `SqlVal` (NULL, TEXT, REAL with rational
  amounts standing for the decimal strings the CSVs carry).
* SQL equality in a `WHERE a = ?` clause is `SqlVal.sqlEq`; a comparison
  involving NULL is never true, as in SQL three-valued logic.
* A pandas cell is `Option String`: `none` is NaN (an empty CSV cell),
  `some s` a textual cell.  Python applies `str(...)` to a NaN cell and
  yields the string "nan" (`Cell.pyStr`); operations that raise a
  `TypeError`/`AttributeError` on NaN (strptime, `.lower()`) are modelled
  by `Cell.asStr`, which fails on `none`.
* Python exceptions are `Except String`; `re.search(p, d, re.IGNORECASE)`
  and the process-wide string `hash` are uninterpreted Boolean/integer
  function parameters (`search`, `hashFn`).
-/

/-- An SQLite storage value: NULL, TEXT, or REAL.  Decimal amounts are
modelled exactly as rationals. -/
inductive SqlVal where
  | null : SqlVal
  | str (s : String) : SqlVal
  | real (q : ℚ) : SqlVal
deriving DecidableEq, Repr

namespace SqlVal

/-- SQL `=` as used in a WHERE clause: NULL compares equal to nothing
(including NULL itself), and values of different storage classes are
unequal. -/
def sqlEq : SqlVal → SqlVal → Bool
  | str a, str b => a = b
  | real a, real b => a = b
  | _, _ => false

/-- The value is not SQL NULL. -/
def notNull : SqlVal → Bool
  | null => false
  | _ => true

theorem sqlEq_refl_of_notNull (v : SqlVal) (h : v.notNull = true) : v.sqlEq v = true := by
  cases v with
  | null => simp [notNull] at h
  | str s => simp [sqlEq]
  | real q => simp [sqlEq]

theorem sqlEq_null_right (v : SqlVal) : v.sqlEq SqlVal.null = false := by
  cases v <;> rfl

theorem eq_of_sqlEq {a b : SqlVal} (h : a.sqlEq b = true) : a = b := by
  cases a <;> cases b <;> simp [sqlEq] at h <;> simp [h]

end SqlVal

/-- The canonical transaction record: the 14 columns inserted by
`TransactionProcessor.process_csv` (the legacy `backend.py` pipeline
inserts the first 13, leaving `account_owner` to default to NULL). -/
structure CanonicalRecord where
  transaction_id : SqlVal
  posting_date : SqlVal
  effective_date : SqlVal
  transaction_type : SqlVal
  amount : SqlVal
  check_number : SqlVal
  reference_number : SqlVal
  description : SqlVal
  transaction_category : SqlVal
  type : SqlVal
  balance : SqlVal
  memo : SqlVal
  extended_description : SqlVal
  account_owner : SqlVal
deriving DecidableEq, Repr

/-- The persisted `transactions` table content, in insertion order. -/
abbrev Store := List CanonicalRecord

/-- The duplicate-existence check shared by both pipeline revisions:
`SELECT 1 FROM transactions WHERE transaction_id = ? AND
reference_number = ?`.  Returns `true` iff some stored row matches both
bound parameters under SQL equality. -/
def existsCheck (store : Store) (tid ref : SqlVal) : Bool :=
  store.any fun r => r.transaction_id.sqlEq tid && r.reference_number.sqlEq ref

/-! ## Table schemas

The two `CREATE TABLE transactions` statements in the repository. -/

structure ColumnDef where
  name : String
  sqlType : String
  isPrimaryKey : Bool
deriving DecidableEq, Repr

structure TableSchema where
  tableName : String
  columns : List ColumnDef
  /-- Table-level UNIQUE constraints, each a list of column names. -/
  uniques : List (List String)
deriving DecidableEq, Repr

/-- The schema created by `backend.py` (13 columns, no `account_owner`,
table-level `UNIQUE(transaction_id, reference_number)`). -/
def backendTransactionsSchema : TableSchema :=
  { tableName := "transactions"
    columns :=
      [ ⟨"transaction_id", "TEXT", false⟩
      , ⟨"posting_date", "TEXT", false⟩
      , ⟨"effective_date", "TEXT", false⟩
      , ⟨"transaction_type", "TEXT", false⟩
      , ⟨"amount", "REAL", false⟩
      , ⟨"check_number", "TEXT", false⟩
      , ⟨"reference_number", "TEXT", false⟩
      , ⟨"description", "TEXT", false⟩
      , ⟨"transaction_category", "TEXT", false⟩
      , ⟨"type", "TEXT", false⟩
      , ⟨"balance", "REAL", false⟩
      , ⟨"memo", "TEXT", false⟩
      , ⟨"extended_description", "TEXT", false⟩ ]
    uniques := [["transaction_id", "reference_number"]] }

/-- The schema created by `load_transactions.py` (14 columns including
`account_owner`, `transaction_id TEXT PRIMARY KEY`, and no table-level
UNIQUE constraint). -/
def loadTransactionsSchema : TableSchema :=
  { tableName := "transactions"
    columns :=
      [ ⟨"transaction_id", "TEXT", true⟩
      , ⟨"posting_date", "TEXT", false⟩
      , ⟨"effective_date", "TEXT", false⟩
      , ⟨"transaction_type", "TEXT", false⟩
      , ⟨"amount", "REAL", false⟩
      , ⟨"check_number", "TEXT", false⟩
      , ⟨"reference_number", "TEXT", false⟩
      , ⟨"description", "TEXT", false⟩
      , ⟨"transaction_category", "TEXT", false⟩
      , ⟨"type", "TEXT", false⟩
      , ⟨"balance", "REAL", false⟩
      , ⟨"memo", "TEXT", false⟩
      , ⟨"extended_description", "TEXT", false⟩
      , ⟨"account_owner", "TEXT", false⟩ ]
    uniques := [] }

/-- Does the schema declare a uniqueness constraint on exactly the pair
(`transaction_id`, `reference_number`)? -/
def hasPairUniqueConstraint (s : TableSchema) : Bool :=
  s.uniques.contains ["transaction_id", "reference_number"]

/-! ## Insert-time constraint conflicts

A new row is rejected by SQLite when it conflicts with an existing row
under the constraints of the schema.  In SQLite, NULLs are considered distinct
for both UNIQUE constraints and (by a long-standing documented quirk)
non-INTEGER PRIMARY KEY columns, so `sqlEq` is the right comparison:
a NULL key component never conflicts. -/

/-- Conflict under the `UNIQUE(transaction_id, reference_number)` constraint of `backend.py`. -/
def backendConflict (old new : CanonicalRecord) : Bool :=
  old.transaction_id.sqlEq new.transaction_id &&
    old.reference_number.sqlEq new.reference_number

/-- Conflict under the `transaction_id TEXT PRIMARY KEY` of `load_transactions.py`
(SQLite permits NULLs, even repeated ones, in a TEXT primary key). -/
def loadConflict (old new : CanonicalRecord) : Bool :=
  old.transaction_id.sqlEq new.transaction_id

/-- The INSERT would violate a constraint against the current store. -/
def insertRejected (conflict : CanonicalRecord → CanonicalRecord → Bool)
    (store : Store) (r : CanonicalRecord) : Bool :=
  store.any fun old => conflict old r

/-! ## The per-row duplicate-check-then-insert step

The body of the row loop shared by `TransactionProcessor.process_csv` and
`backend.process_csv`: probe the store with the new record pair
(transaction_id, reference_number); if absent, attempt the INSERT
(counting it as new on success, logging the storage error otherwise);
if present, count a duplicate. -/

structure RunCounts where
  newRecords : Nat
  duplicates : Nat
deriving DecidableEq, Repr

def processRow (conflict : CanonicalRecord → CanonicalRecord → Bool)
    (st : Store × RunCounts) (r : CanonicalRecord) : Store × RunCounts :=
  if existsCheck st.1 r.transaction_id r.reference_number then
    (st.1, { st.2 with duplicates := st.2.duplicates + 1 })
  else if insertRejected conflict st.1 r then
    -- sqlite3.Error on INSERT: logged, row skipped, loop continues
    st
  else
    (st.1 ++ [r], { st.2 with newRecords := st.2.newRecords + 1 })

/-- Process a list of already-normalized records against the store,
threading the per-file counters. -/
def processRecords (conflict : CanonicalRecord → CanonicalRecord → Bool)
    (records : List CanonicalRecord) (st : Store × RunCounts) : Store × RunCounts :=
  records.foldl (processRow conflict) st

/-- Store content after ingesting `records`, ignoring counters. -/
def ingestStore (conflict : CanonicalRecord → CanonicalRecord → Bool)
    (records : List CanonicalRecord) (store : Store) : Store :=
  (processRecords conflict records (store, ⟨0, 0⟩)).1

/-! ## Category rule engine

The `category_mappings` object is a JSON object, i.e. an
insertion-ordered mapping from regex pattern to category label;
`search pattern description` stands for
`re.search(pattern, description, re.IGNORECASE) is not None`. -/

namespace TransactionProcessor

/-- Embeds `TransactionProcessor.categorize_description`: the first
pattern (in mapping order) whose case-insensitive search matches wins;
with no match it returns the string "Uncategorized". -/
def categorize_description (search : String → String → Bool)
    (mappings : List (String × String)) (description : String) : String :=
  match mappings with
  | [] => "Uncategorized"
  | (pattern, category) :: rest =>
    if search pattern description then category
    else categorize_description search rest description

end TransactionProcessor

namespace Backend

/-- Embeds `backend.categorize_description`: the first pattern (in
mapping order) whose case-insensitive search matches wins; with no match
it returns Python `None`. -/
def categorize_description (search : String → String → Bool)
    (mappings : List (String × String)) (description : String) : Option String :=
  match mappings with
  | [] => none
  | (pattern, category) :: rest =>
    if search pattern description then some category
    else categorize_description search rest description

end Backend

/-- First-match-in-order classification, written as a direct list search:
the reference form used to state order-dependence of the two classifiers. -/
def firstMatchCategory (search : String → String → Bool)
    (mappings : List (String × String)) (description : String) : Option String :=
  (mappings.find? fun pc => search pc.1 description).map Prod.snd

theorem backend_categorize_eq_firstMatch (search : String → String → Bool)
    (mappings : List (String × String)) (d : String) :
    Backend.categorize_description search mappings d = firstMatchCategory search mappings d := by
  induction mappings with
  | nil => rfl
  | cons pc rest ih =>
    cases pc with
    | mk p c =>
      by_cases h : search p d
      · simp [Backend.categorize_description, firstMatchCategory, List.find?, h]
      · simp only [Backend.categorize_description, firstMatchCategory, List.find?] at *
        simp [h, ih]

theorem processor_categorize_eq_getD (search : String → String → Bool)
    (mappings : List (String × String)) (d : String) :
    TransactionProcessor.categorize_description search mappings d =
      (firstMatchCategory search mappings d).getD "Uncategorized" := by
  induction mappings with
  | nil => rfl
  | cons pc rest ih =>
    cases pc with
    | mk p c =>
      by_cases h : search p d
      · simp [TransactionProcessor.categorize_description, firstMatchCategory, List.find?, h]
      · simp only [TransactionProcessor.categorize_description, firstMatchCategory,
          List.find?] at *
        simp [h, ih]

/-! ## Pandas cells and raw CSV rows -/

/-- A cell of a loaded CSV table: `none` models NaN (an empty cell). -/
abbrev Cell := Option String

/-- Python `str(cell)`: `str(nan)` is the string "nan"; never fails. -/
def Cell.pyStr : Cell → String
  | none => "nan"
  | some s => s

/-- Direct use of a cell as a string (strptime argument, `.lower()`
receiver): raises a TypeError / AttributeError on a NaN cell. -/
def Cell.asStr : Cell → Except String String
  | none => Except.error "TypeError: value is nan, not a str"
  | some s => Except.ok s

/-- Embeds `pd.notna`. -/
def Cell.notna : Cell → Bool := Option.isSome

/-- The SQLite value a passthrough cell is stored as: NaN becomes NULL. -/
def cellToSql : Cell → SqlVal
  | none => SqlVal.null
  | some s => SqlVal.str s

/-- One row of a loaded CSV table, as an association list from column
name to cell. -/
abbrev RawRow := List (String × Cell)

/-- Column access `row[col]`: raises KeyError if the column is absent. -/
def getCell (row : RawRow) (col : String) : Except String Cell :=
  match row.lookup col with
  | some c => Except.ok c
  | none => Except.error ("KeyError: " ++ col)

/-- Embeds `str(x).replace(",", "")`: every comma is removed.  Written
over the underlying character list so that it evaluates by kernel
reduction. -/
def stripCommas (s : String) : String :=
  String.mk (s.data.filter fun c => !(c = ','))

/-- Embeds the ASCII effect of Python `.lower()`. -/
def pyLower (s : String) : String :=
  String.mk (s.data.map Char.toLower)

/-- Splits a character list on a separator character; like Python
`split`, adjacent separators yield empty fields. -/
def splitChars (sep : Char) (cs : List Char) (acc : List Char) : List (List Char) :=
  match cs with
  | [] => [acc.reverse]
  | c :: rest =>
    if c = sep then acc.reverse :: splitChars sep rest []
    else splitChars sep rest (c :: acc)

/-- Application of `TransactionProcessor.categorize_description` to a raw
cell: `re.search` raises a TypeError when handed a NaN cell, but only if
the mapping is non-empty (with an empty mapping the loop body never runs
and the fallback is returned directly). -/
def TransactionProcessor.categorize_cell (search : String → String → Bool)
    (mappings : List (String × String)) (c : Cell) : Except String String :=
  match mappings with
  | [] => Except.ok "Uncategorized"
  | _ :: _ =>
    match c with
    | some d => Except.ok (TransactionProcessor.categorize_description search mappings d)
    | none => Except.error "TypeError: expected string or bytes-like object"

/-- Application of `backend.categorize_description` to a raw cell:
`re.search` raises a TypeError on a NaN cell, but only if the mapping is
non-empty. -/
def Backend.categorize_cell (search : String → String → Bool)
    (mappings : List (String × String)) (c : Cell) : Except String (Option String) :=
  match mappings with
  | [] => Except.ok none
  | _ :: _ =>
    match c with
    | some d => Except.ok (Backend.categorize_description search mappings d)
    | none => Except.error "TypeError: expected string or bytes-like object"

/-- The category value stored by `process_my_transaction`: the Python
expression `self.categorize_description(row[Description]) or
row[Transaction Category]` — the classifier result unless it is falsy
(the empty string), in which case the short-circuiting `or` evaluates
(and may KeyError on) the raw category cell. -/
def TransactionProcessor.myCategoryValue (search : String → String → Bool)
    (mappings : List (String × String)) (descCell : Cell) (row : RawRow) :
    Except String SqlVal := do
  let category ← TransactionProcessor.categorize_cell search mappings descCell
  if category = "" then do
    let raw ← getCell row "Transaction Category"
    pure (cellToSql raw)
  else pure (SqlVal.str category)

/-- The category value stored by `backend.process_csv` (its lines
100–103): `category = categorize_description(row[Description]); if not
category: category = row[Transaction Category]` — the classifier result
unless it is falsy (None or the empty string), in which case the raw
category cell is read (and may KeyError) and used. -/
def Backend.resolveCategory (search : String → String → Bool)
    (mappings : List (String × String)) (descCell : Cell) (row : RawRow) :
    Except String SqlVal := do
  let category ← Backend.categorize_cell search mappings descCell
  match category with
  | some c =>
    if c = "" then do
      let raw ← getCell row "Transaction Category"
      pure (cellToSql raw)
    else pure (SqlVal.str c)
  | none => do
    let raw ← getCell row "Transaction Category"
    pure (cellToSql raw)

/-! ## Decimal parsing

Embeds Python `float(...)` on the comma-stripped amount strings carried
by the CSVs: an optional sign followed by decimal digits with at most one
point (scientific notation and the inf/nan spellings, which no bank CSV
carries, are out of the model).  Results are exact rationals. -/

def digitsToNat (cs : List Char) : Nat :=
  cs.foldl (fun n c => n * 10 + (c.toNat - 48)) 0

/-- Magnitude part of `float(...)`: digits with at most one point. -/
def parseFloatBody (s : String) (cs : List Char) : Except String ℚ :=
  match splitChars '.' cs [] with
  | [ip] =>
    if ip.length > 0 && ip.all Char.isDigit then
      Except.ok (digitsToNat ip : ℚ)
    else Except.error ("ValueError: could not convert string to float: " ++ s)
  | [ip, fp] =>
    if (ip.length > 0 || fp.length > 0) && ip.all Char.isDigit && fp.all Char.isDigit then
      Except.ok ((digitsToNat ip : ℚ) + (digitsToNat fp : ℚ) / (10 : ℚ) ^ fp.length)
    else Except.error ("ValueError: could not convert string to float: " ++ s)
  | _ => Except.error ("ValueError: could not convert string to float: " ++ s)

def parseFloat (s : String) : Except String ℚ :=
  match s.data with
  | '-' :: rest => (parseFloatBody s rest).map fun q => -q
  | '+' :: rest => parseFloatBody s rest
  | cs => parseFloatBody s cs

/-! ## Dates

Embeds `datetime.strptime` for the two formats the adapters use, with
real calendar validation (strptime rejects e.g. February 30), and
`strftime` zero-padded formatting. -/

structure PDate where
  year : Nat
  month : Nat
  day : Nat
deriving DecidableEq, Repr

def isLeapYear (y : Nat) : Bool :=
  y % 4 == 0 && (y % 100 != 0 || y % 400 == 0)

def daysInMonth (y m : Nat) : Nat :=
  if m == 2 then (if isLeapYear y then 29 else 28)
  else if m == 4 || m == 6 || m == 9 || m == 11 then 30
  else 31

def validDate (d : PDate) : Bool :=
  1 ≤ d.month && d.month ≤ 12 && 1 ≤ d.day && d.day ≤ daysInMonth d.year d.month

/-- A run of 1 to `maxWidth` decimal digits, as strptime field matching. -/
def parseField (s : String) (cs : List Char) (maxWidth : Nat) : Except String Nat :=
  if 1 ≤ cs.length && cs.length ≤ maxWidth && cs.all Char.isDigit then
    Except.ok (digitsToNat cs)
  else Except.error ("ValueError: time data does not match format: " ++ s)

/-- Embeds `datetime.strptime(s, "%m/%d/%y")`; two-digit years 00–68 map
to 20xx and 69–99 to 19xx, as in CPython. -/
def strptimeMDY (s : String) : Except String PDate := do
  match splitChars '/' s.data [] with
  | [ms, ds, ys] =>
    let m ← parseField s ms 2
    let d ← parseField s ds 2
    let yy ← parseField s ys 2
    let y := if yy ≤ 68 then 2000 + yy else 1900 + yy
    let date : PDate := ⟨y, m, d⟩
    if validDate date then pure date
    else Except.error ("ValueError: day is out of range: " ++ s)
  | _ => Except.error ("ValueError: time data does not match format: " ++ s)

/-- Embeds `datetime.strptime(s, "%Y-%m-%d")`. -/
def strptimeISO (s : String) : Except String PDate := do
  match splitChars '-' s.data [] with
  | [ys, ms, ds] =>
    let y ← parseField s ys 4
    let m ← parseField s ms 2
    let d ← parseField s ds 2
    let date : PDate := ⟨y, m, d⟩
    if validDate date then pure date
    else Except.error ("ValueError: day is out of range: " ++ s)
  | _ => Except.error ("ValueError: time data does not match format: " ++ s)

def pad2 (n : Nat) : String :=
  if n < 10 then "0" ++ toString n else toString n

def pad4 (n : Nat) : String :=
  if n < 10 then "000" ++ toString n
  else if n < 100 then "00" ++ toString n
  else if n < 1000 then "0" ++ toString n
  else toString n

/-- Embeds `strftime("%Y%m%d")`. -/
def fmtYYYYMMDD (d : PDate) : String :=
  pad4 d.year ++ pad2 d.month ++ pad2 d.day

/-- Embeds `strftime("%Y-%m-%d")`. -/
def fmtISO (d : PDate) : String :=
  pad4 d.year ++ "-" ++ pad2 d.month ++ "-" ++ pad2 d.day

/-! ## Source adapters (`TransactionProcessor.process_*_transaction`) -/

namespace TransactionProcessor

/-- Embeds `TransactionProcessor.process_my_transaction`: a near 1:1
field mapping; the category is the classifier result unless that result
is falsy (the empty string), in which case Python `or` falls back to the
raw `Transaction Category` cell.  Field accesses raise KeyError when the
column is absent (the my-kind required set does not cover them all). -/
def process_my_transaction (search : String → String → Bool)
    (mappings : List (String × String)) (row : RawRow) :
    Except String CanonicalRecord := do
  let tid ← getCell row "Transaction ID"
  let postingDate ← getCell row "Posting Date"
  let effectiveDate ← getCell row "Effective Date"
  let ttype ← getCell row "Transaction Type"
  let amount ← getCell row "Amount"
  let checkNumber ← getCell row "Check Number"
  let refNumber ← getCell row "Reference Number"
  let descCell ← getCell row "Description"
  let categoryVal ← myCategoryValue search mappings descCell row
  let typeCell ← getCell row "Type"
  let balance ← getCell row "Balance"
  let memo ← getCell row "Memo"
  let extendedDescription ← getCell row "Extended Description"
  pure
    { transaction_id := cellToSql tid
      posting_date := cellToSql postingDate
      effective_date := cellToSql effectiveDate
      transaction_type := cellToSql ttype
      amount := cellToSql amount
      check_number := cellToSql checkNumber
      reference_number := cellToSql refNumber
      description := cellToSql descCell
      transaction_category := categoryVal
      type := cellToSql typeCell
      balance := cellToSql balance
      memo := cellToSql memo
      extended_description := cellToSql extendedDescription
      account_owner := SqlVal.str "Connor" }

/-- Embeds `TransactionProcessor.process_partner_transaction`: parse the
MM/DD/YY date, synthesize the identity from the date and the hash of the
description, strip thousands separators, and force the amount sign from
the raw transaction-type field. -/
def process_partner_transaction (search : String → String → Bool)
    (hashFn : String → Int) (mappings : List (String × String)) (row : RawRow) :
    Except String CanonicalRecord := do
  let dateCell ← getCell row "Transaction Date"
  let dateStr ← dateCell.asStr
  let d ← strptimeMDY dateStr
  let formatted := toString d.month ++ "/" ++ toString d.day ++ "/" ++ pad4 d.year
  let descCell ← getCell row "Transaction Description"
  let desc := descCell.pyStr
  let uniqueId :=
    "P_" ++ fmtYYYYMMDD d ++ "_" ++ toString (Int.natAbs (hashFn desc))
  let amtCell ← getCell row "Transaction Amount"
  let amount0 ← parseFloat (stripCommas amtCell.pyStr)
  let ttypeCell ← getCell row "Transaction Type"
  let ttype ← ttypeCell.asStr
  let amount :=
    if pyLower ttype = "debit" then -|amount0|
    else if pyLower ttype = "credit" then |amount0|
    else amount0
  let balCell ← getCell row "Balance"
  let bal ← parseFloat (stripCommas balCell.pyStr)
  pure
    { transaction_id := SqlVal.str uniqueId
      posting_date := SqlVal.str formatted
      effective_date := SqlVal.str formatted
      transaction_type := SqlVal.str ttype
      amount := SqlVal.real amount
      check_number := SqlVal.null
      reference_number := SqlVal.str uniqueId
      description := SqlVal.str desc
      transaction_category :=
        SqlVal.str (categorize_description search mappings desc)
      type := SqlVal.str ttype
      balance := SqlVal.real bal
      memo := SqlVal.null
      extended_description := SqlVal.null
      account_owner := SqlVal.str "Partner" }

/-- The "determine amount based on Debit/Credit columns" block of
`process_card_transaction`: negated absolute debit if present, else
absolute credit if present, else 0. -/
def cardAmount (debitCell creditCell : Cell) : Except String ℚ :=
  if debitCell.notna then do
    let v ← parseFloat (stripCommas debitCell.pyStr)
    pure (-|v|)
  else if creditCell.notna then do
    let v ← parseFloat (stripCommas creditCell.pyStr)
    pure |v|
  else pure 0

/-- Embeds `TransactionProcessor.process_card_transaction`: parse the two
ISO dates, synthesize the identity from the transaction date and the hash
of the description, derive the amount from the Debit/Credit columns and
the transaction type from its sign, and leave the balance NULL. -/
def process_card_transaction (search : String → String → Bool)
    (hashFn : String → Int) (mappings : List (String × String)) (row : RawRow) :
    Except String CanonicalRecord := do
  let tdCell ← getCell row "Transaction Date"
  let tdStr ← tdCell.asStr
  let td ← strptimeISO tdStr
  let pdCell ← getCell row "Posted Date"
  let pdStr ← pdCell.asStr
  let pdDate ← strptimeISO pdStr
  let descCell ← getCell row "Description"
  let desc := descCell.pyStr
  let uniqueId :=
    "C_" ++ fmtYYYYMMDD td ++ "_" ++ toString (Int.natAbs (hashFn desc))
  let debitCell ← getCell row "Debit"
  let creditCell ← getCell row "Credit"
  let amount ← cardAmount debitCell creditCell
  let ttype := if amount < 0 then "Debit" else "Credit"
  let cardCell ← getCell row "Card No."
  pure
    { transaction_id := SqlVal.str uniqueId
      posting_date := SqlVal.str (fmtISO pdDate)
      effective_date := SqlVal.str (fmtISO td)
      transaction_type := SqlVal.str ttype
      amount := SqlVal.real amount
      check_number := SqlVal.null
      reference_number := SqlVal.str ("CARD_" ++ cardCell.pyStr ++ "_" ++ uniqueId)
      description := SqlVal.str desc
      transaction_category :=
        SqlVal.str (categorize_description search mappings desc)
      type := SqlVal.str ttype
      balance := SqlVal.null
      memo := SqlVal.null
      extended_description := SqlVal.null
      account_owner := SqlVal.str "Card" }

end TransactionProcessor

/-! ## File-level processing (`TransactionProcessor.process_csv`) -/

/-- A loaded CSV file: the header columns and the data rows. -/
structure CsvTable where
  columns : List String
  rows : List RawRow
deriving DecidableEq, Repr

/-- The `required_columns` dict of `TransactionProcessor.process_csv`;
kinds outside the dict undergo no validation (empty requirement). -/
def requiredColumns : String → List String
  | "partner" =>
    ["Account Number", "Transaction Description", "Transaction Date",
     "Transaction Type", "Transaction Amount", "Balance"]
  | "card" =>
    ["Transaction Date", "Posted Date", "Card No.", "Description",
     "Category", "Debit", "Credit"]
  | "my" =>
    ["Transaction ID", "Posting Date", "Effective Date", "Transaction Type",
     "Amount", "Description"]
  | _ => []

/-- The missing-columns computation of `process_csv`. -/
def missingColumns (kind : String) (columns : List String) : List String :=
  (requiredColumns kind).filter fun c => !(columns.contains c)

/-- Adapter dispatch of the row loop: kind "my", "partner", and
everything else treated as card. -/
def adapterFor (search : String → String → Bool) (hashFn : String → Int)
    (mappings : List (String × String)) (kind : String) (row : RawRow) :
    Except String CanonicalRecord :=
  if kind = "my" then
    TransactionProcessor.process_my_transaction search mappings row
  else if kind = "partner" then
    TransactionProcessor.process_partner_transaction search hashFn mappings row
  else
    TransactionProcessor.process_card_transaction search hashFn mappings row

/-- Result of processing one file. -/
inductive FileOutcome where
  /-- All rows consumed; per-file counters as logged. -/
  | completed (counts : RunCounts)
  /-- Required columns absent: the missing names are logged and the file
  is skipped without processing any row. -/
  | skippedMissingColumns (missing : List String)
  /-- An adapter exception at the given row index: logged and re-raised
  by `process_csv`, so later rows of the file are never processed. -/
  | abortedRowError (rowIndex : Nat) (msg : String)
deriving DecidableEq, Repr

/-- The row loop of `TransactionProcessor.process_csv`: a successful
adapter result goes through the duplicate-check-then-insert step; an
adapter exception propagates to the catch-all handler, which logs and
re-raises, leaving the store as committed so far. -/
def processRowsLoop (conflict : CanonicalRecord → CanonicalRecord → Bool)
    (adapter : RawRow → Except String CanonicalRecord)
    (rows : List RawRow) (idx : Nat) (st : Store × RunCounts) :
    Store × FileOutcome :=
  match rows with
  | [] => (st.1, FileOutcome.completed st.2)
  | row :: rest =>
    match adapter row with
    | Except.error msg => (st.1, FileOutcome.abortedRowError idx msg)
    | Except.ok rec =>
      processRowsLoop conflict adapter rest (idx + 1) (processRow conflict st rec)

/-- Embeds `TransactionProcessor.process_csv` for an already loadable
file: validate required columns for the kind (skipping the whole file if
any are missing), then run the per-row loop. -/
def processCsv (conflict : CanonicalRecord → CanonicalRecord → Bool)
    (search : String → String → Bool) (hashFn : String → Int)
    (mappings : List (String × String)) (kind : String)
    (table : CsvTable) (store : Store) : Store × FileOutcome :=
  let missing := missingColumns kind table.columns
  if missing ≠ [] then (store, FileOutcome.skippedMissingColumns missing)
  else
    processRowsLoop conflict (adapterFor search hashFn mappings kind)
      table.rows 0 (store, ⟨0, 0⟩)

/-- The per-folder loop of `load_transactions.py`: files are processed in
order; a skipped file (missing columns) lets the loop continue, while a
re-raised row error is uncaught in the driver and aborts the whole run,
so the remaining files of the folder are never processed. -/
def ingestFolder (conflict : CanonicalRecord → CanonicalRecord → Bool)
    (search : String → String → Bool) (hashFn : String → Int)
    (mappings : List (String × String)) (kind : String)
    (files : List CsvTable) (store : Store) : Store × List FileOutcome :=
  match files with
  | [] => (store, [])
  | t :: rest =>
    match processCsv conflict search hashFn mappings kind t store with
    | (s, FileOutcome.abortedRowError i msg) =>
      (s, [FileOutcome.abortedRowError i msg])
    | (s, out) =>
      let next := ingestFolder conflict search hashFn mappings kind rest s
      (next.1, out :: next.2)

/-! ## The legacy `backend.py` pipeline

No required-column validation; the duplicate check runs first, then the
category is resolved (rule engine result if truthy, else the raw
`Transaction Category` cell) and 13 columns are inserted (no
`account_owner`).  A KeyError on a row access is uncaught and aborts the
whole run. -/

namespace Backend

/-- One iteration of the row loop of `backend.process_csv`. -/
def processRowBackend (conflict : CanonicalRecord → CanonicalRecord → Bool)
    (search : String → String → Bool) (mappings : List (String × String))
    (st : Store × RunCounts) (row : RawRow) : Except String (Store × RunCounts) := do
  let tidCell ← getCell row "Transaction ID"
  let refCell ← getCell row "Reference Number"
  let tid := cellToSql tidCell
  let ref := cellToSql refCell
  if existsCheck st.1 tid ref then
    pure (st.1, { st.2 with duplicates := st.2.duplicates + 1 })
  else do
    let descCell ← getCell row "Description"
    let categoryVal ← resolveCategory search mappings descCell row
    let postingDate ← getCell row "Posting Date"
    let effectiveDate ← getCell row "Effective Date"
    let ttype ← getCell row "Transaction Type"
    let amount ← getCell row "Amount"
    let checkNumber ← getCell row "Check Number"
    let typeCell ← getCell row "Type"
    let balance ← getCell row "Balance"
    let memo ← getCell row "Memo"
    let extendedDescription ← getCell row "Extended Description"
    let rec13 : CanonicalRecord :=
      { transaction_id := tid
        posting_date := cellToSql postingDate
        effective_date := cellToSql effectiveDate
        transaction_type := cellToSql ttype
        amount := cellToSql amount
        check_number := cellToSql checkNumber
        reference_number := ref
        description := cellToSql descCell
        transaction_category := categoryVal
        type := cellToSql typeCell
        balance := cellToSql balance
        memo := cellToSql memo
        extended_description := cellToSql extendedDescription
        account_owner := SqlVal.null }
    if insertRejected conflict st.1 rec13 then
      pure st
    else
      pure (st.1 ++ [rec13], { st.2 with newRecords := st.2.newRecords + 1 })

/-- The row loop of `backend.process_csv`: no column validation; a
KeyError aborts the loop (and, uncaught, the run). -/
def processRowsBackend (conflict : CanonicalRecord → CanonicalRecord → Bool)
    (search : String → String → Bool) (mappings : List (String × String))
    (rows : List RawRow) (idx : Nat) (st : Store × RunCounts) :
    Store × FileOutcome :=
  match rows with
  | [] => (st.1, FileOutcome.completed st.2)
  | row :: rest =>
    match processRowBackend conflict search mappings st row with
    | Except.error msg => (st.1, FileOutcome.abortedRowError idx msg)
    | Except.ok st2 => processRowsBackend conflict search mappings rest (idx + 1) st2

/-- Embeds `backend.process_csv` on an already loadable file: straight to
the row loop, with no required-column validation. -/
def processCsvBackend (conflict : CanonicalRecord → CanonicalRecord → Bool)
    (search : String → String → Bool) (mappings : List (String × String))
    (table : CsvTable) (store : Store) : Store × FileOutcome :=
  processRowsBackend conflict search mappings table.rows 0 (store, ⟨0, 0⟩)

/-- The top-level folder loop of `backend.py`: like the processor driver,
an uncaught row exception aborts the run, skipping the remaining files. -/
def ingestFolderBackend (conflict : CanonicalRecord → CanonicalRecord → Bool)
    (search : String → String → Bool) (mappings : List (String × String))
    (files : List CsvTable) (store : Store) : Store × List FileOutcome :=
  match files with
  | [] => (store, [])
  | t :: rest =>
    match processCsvBackend conflict search mappings t store with
    | (s, FileOutcome.abortedRowError i msg) =>
      (s, [FileOutcome.abortedRowError i msg])
    | (s, out) =>
      let next := ingestFolderBackend conflict search mappings rest s
      (next.1, out :: next.2)

end Backend

/-! ## Store lemmas: settledness, idempotence, pair uniqueness -/

/-- A record the pipeline will never insert again into store `S`: either
the duplicate check finds it, or the INSERT is rejected by a constraint. -/
def settledRec (conflict : CanonicalRecord → CanonicalRecord → Bool)
    (S : Store) (r : CanonicalRecord) : Prop :=
  existsCheck S r.transaction_id r.reference_number = true ∨
    insertRejected conflict S r = true

theorem existsCheck_append_left {S : Store} (u : Store) {tid ref : SqlVal}
    (h : existsCheck S tid ref = true) : existsCheck (S ++ u) tid ref = true := by
  simp only [existsCheck, List.any_append, Bool.or_eq_true]
  exact Or.inl h

theorem insertRejected_append_left {conflict : CanonicalRecord → CanonicalRecord → Bool}
    {S : Store} (u : Store) {r : CanonicalRecord}
    (h : insertRejected conflict S r = true) :
    insertRejected conflict (S ++ u) r = true := by
  simp only [insertRejected, List.any_append, Bool.or_eq_true]
  exact Or.inl h

theorem settledRec_append {conflict : CanonicalRecord → CanonicalRecord → Bool}
    {S : Store} (u : Store) {r : CanonicalRecord}
    (h : settledRec conflict S r) : settledRec conflict (S ++ u) r := by
  cases h with
  | inl h => exact Or.inl (existsCheck_append_left u h)
  | inr h => exact Or.inr (insertRejected_append_left u h)

theorem processRow_store_extends (conflict : CanonicalRecord → CanonicalRecord → Bool)
    (st : Store × RunCounts) (r : CanonicalRecord) :
    ∃ u, (processRow conflict st r).1 = st.1 ++ u := by
  unfold processRow
  by_cases h1 : existsCheck st.1 r.transaction_id r.reference_number
  · exact ⟨[], by simp [h1]⟩
  · by_cases h2 : insertRejected conflict st.1 r
    · exact ⟨[], by simp [h1, h2]⟩
    · exact ⟨[r], by simp [h1, h2]⟩

theorem processRecords_store_extends (conflict : CanonicalRecord → CanonicalRecord → Bool)
    (recs : List CanonicalRecord) (st : Store × RunCounts) :
    ∃ u, (processRecords conflict recs st).1 = st.1 ++ u := by
  induction recs generalizing st with
  | nil => exact ⟨[], by simp [processRecords]⟩
  | cons a l ih =>
    obtain ⟨u1, hu1⟩ := processRow_store_extends conflict st a
    obtain ⟨u2, hu2⟩ := ih (processRow conflict st a)
    exact ⟨u1 ++ u2, by
      simp only [processRecords, List.foldl_cons] at *
      rw [hu2, hu1, List.append_assoc]⟩

theorem processRow_settles (conflict : CanonicalRecord → CanonicalRecord → Bool)
    (st : Store × RunCounts) (r : CanonicalRecord)
    (hid : r.transaction_id.notNull = true) (href : r.reference_number.notNull = true) :
    settledRec conflict (processRow conflict st r).1 r := by
  unfold processRow
  by_cases h1 : existsCheck st.1 r.transaction_id r.reference_number
  · simp only [h1, if_true]
    exact Or.inl h1
  · by_cases h2 : insertRejected conflict st.1 r
    · simp only [h1, h2, if_false, if_true]
      exact Or.inr h2
    · have hx : existsCheck (st.1 ++ [r]) r.transaction_id r.reference_number = true := by
        simp [existsCheck, List.any_append, SqlVal.sqlEq_refl_of_notNull _ hid,
          SqlVal.sqlEq_refl_of_notNull _ href]
      simp only [h1, h2, if_false]
      exact Or.inl hx

theorem processRecords_settles_all (conflict : CanonicalRecord → CanonicalRecord → Bool)
    (recs : List CanonicalRecord) (st : Store × RunCounts)
    (h : ∀ r ∈ recs, r.transaction_id.notNull = true ∧ r.reference_number.notNull = true) :
    ∀ r ∈ recs, settledRec conflict (processRecords conflict recs st).1 r := by
  induction recs generalizing st with
  | nil => intro r hr; cases hr
  | cons a l ih =>
    intro r hr
    have hstep : processRecords conflict (a :: l) st =
        processRecords conflict l (processRow conflict st a) := by
      simp [processRecords]
    cases hr with
    | head =>
      obtain ⟨u, hu⟩ := processRecords_store_extends conflict l (processRow conflict st a)
      rw [hstep, hu]
      exact settledRec_append u
        (processRow_settles conflict st a (h a (by simp)).1 (h a (by simp)).2)
    | tail _ hmem =>
      rw [hstep]
      exact ih (processRow conflict st a) (fun x hx => h x (List.mem_cons_of_mem a hx)) r hmem

theorem processRow_noop_of_settled (conflict : CanonicalRecord → CanonicalRecord → Bool)
    (st : Store × RunCounts) (r : CanonicalRecord)
    (h : settledRec conflict st.1 r) :
    (processRow conflict st r).1 = st.1 ∧
      (processRow conflict st r).2.newRecords = st.2.newRecords := by
  unfold processRow
  by_cases h1 : existsCheck st.1 r.transaction_id r.reference_number
  · simp [h1]
  · have h2 : insertRejected conflict st.1 r = true := by
      cases h with
      | inl hx => exact absurd hx h1
      | inr hx => exact hx
    simp [h1, h2]

theorem processRecords_noop_of_settled (conflict : CanonicalRecord → CanonicalRecord → Bool)
    (recs : List CanonicalRecord) (st : Store × RunCounts)
    (h : ∀ r ∈ recs, settledRec conflict st.1 r) :
    (processRecords conflict recs st).1 = st.1 ∧
      (processRecords conflict recs st).2.newRecords = st.2.newRecords := by
  induction recs generalizing st with
  | nil => simp [processRecords]
  | cons a l ih =>
    have hstep : processRecords conflict (a :: l) st =
        processRecords conflict l (processRow conflict st a) := by
      simp [processRecords]
    have ha := processRow_noop_of_settled conflict st a (h a (by simp))
    have hrest : ∀ r ∈ l, settledRec conflict (processRow conflict st a).1 r := by
      intro r hr
      rw [ha.1]
      exact h r (List.mem_cons_of_mem a hr)
    have := ih (processRow conflict st a) hrest
    rw [hstep]
    exact ⟨this.1.trans ha.1, this.2.trans ha.2⟩

/-- The store component of a run does not depend on the incoming counters. -/
theorem processRow_store_counters_indep (conflict : CanonicalRecord → CanonicalRecord → Bool)
    (S : Store) (c c' : RunCounts) (r : CanonicalRecord) :
    (processRow conflict (S, c) r).1 = (processRow conflict (S, c') r).1 := by
  unfold processRow
  by_cases h1 : existsCheck S r.transaction_id r.reference_number
  · simp [h1]
  · by_cases h2 : insertRejected conflict S r <;> simp [h1, h2]

theorem processRecords_store_counters_indep (conflict : CanonicalRecord → CanonicalRecord → Bool)
    (recs : List CanonicalRecord) (S : Store) (c c' : RunCounts) :
    (processRecords conflict recs (S, c)).1 = (processRecords conflict recs (S, c')).1 := by
  induction recs generalizing S c c' with
  | nil => simp [processRecords]
  | cons a l ih =>
    simp only [processRecords, List.foldl_cons]
    have h1 := processRow_store_counters_indep conflict S c c' a
    have : processRow conflict (S, c) a =
        ((processRow conflict (S, c) a).1, (processRow conflict (S, c) a).2) := rfl
    rw [show (List.foldl (processRow conflict) (processRow conflict (S, c) a) l) =
        (processRecords conflict l (processRow conflict (S, c) a)) from rfl,
      show (List.foldl (processRow conflict) (processRow conflict (S, c') a) l) =
        (processRecords conflict l (processRow conflict (S, c') a)) from rfl]
    calc (processRecords conflict l (processRow conflict (S, c) a)).1
        = (processRecords conflict l
            ((processRow conflict (S, c) a).1, (processRow conflict (S, c) a).2)).1 := rfl
      _ = (processRecords conflict l
            ((processRow conflict (S, c') a).1, (processRow conflict (S, c) a).2)).1 := by
              rw [h1]
      _ = (processRecords conflict l
            ((processRow conflict (S, c') a).1, (processRow conflict (S, c') a).2)).1 := by
              rw [ih]
      _ = (processRecords conflict l (processRow conflict (S, c') a)).1 := rfl

theorem ingestStore_append (conflict : CanonicalRecord → CanonicalRecord → Bool)
    (l1 l2 : List CanonicalRecord) (S : Store) :
    ingestStore conflict (l1 ++ l2) S = ingestStore conflict l2 (ingestStore conflict l1 S) := by
  unfold ingestStore
  simp only [processRecords, List.foldl_append]
  rcases h : List.foldl (processRow conflict) (S, (⟨0, 0⟩ : RunCounts)) l1 with ⟨S1, c1⟩
  have := processRecords_store_counters_indep conflict l2 S1 c1 ⟨0, 0⟩
  simp only [processRecords] at this
  rw [this]

/-- Two stored rows do not share a fully non-null duplicate key: the
later row `b` does not repeat the (transaction_id, reference_number)
pair of the earlier row `a` when the pair of `b` is non-null. -/
def goodPair (a b : CanonicalRecord) : Prop :=
  ¬(a.transaction_id = b.transaction_id ∧ a.reference_number = b.reference_number ∧
      b.transaction_id.notNull = true ∧ b.reference_number.notNull = true)

/-- No two rows of the store share a non-null duplicate key. -/
def noSharedPair (S : Store) : Prop := S.Pairwise goodPair

theorem processRow_preserves_noSharedPair
    (conflict : CanonicalRecord → CanonicalRecord → Bool)
    (st : Store × RunCounts) (r : CanonicalRecord) (h : noSharedPair st.1) :
    noSharedPair (processRow conflict st r).1 := by
  unfold processRow
  by_cases h1 : existsCheck st.1 r.transaction_id r.reference_number
  · simpa [h1] using h
  · by_cases h2 : insertRejected conflict st.1 r
    · simpa [h1, h2] using h
    · simp only [h1, h2, Bool.false_eq_true, if_false]
      unfold noSharedPair at *
      rw [List.pairwise_append]
      refine ⟨h, by simp, ?_⟩
      intro a ha b hb
      have hb1 : b = r := by simpa using hb
      rw [hb1]
      intro ⟨hid, href, hnid, hnref⟩
      have : existsCheck st.1 r.transaction_id r.reference_number = true := by
        have : (fun x => x.transaction_id.sqlEq r.transaction_id &&
            x.reference_number.sqlEq r.reference_number) a = true := by
          simp [hid, href, SqlVal.sqlEq_refl_of_notNull _ hnid,
            SqlVal.sqlEq_refl_of_notNull _ hnref]
        exact List.any_eq_true.mpr ⟨a, ha, this⟩
      exact h1 this

theorem processRecords_preserves_noSharedPair
    (conflict : CanonicalRecord → CanonicalRecord → Bool)
    (recs : List CanonicalRecord) (st : Store × RunCounts) (h : noSharedPair st.1) :
    noSharedPair (processRecords conflict recs st).1 := by
  induction recs generalizing st with
  | nil => simpa [processRecords] using h
  | cons a l ih =>
    have hstep : processRecords conflict (a :: l) st =
        processRecords conflict l (processRow conflict st a) := by
      simp [processRecords]
    rw [hstep]
    exact ih (processRow conflict st a) (processRow_preserves_noSharedPair conflict st a h)

/-! ## Concrete sample data

Small concrete mappings, rows and tables used to evaluate the pipeline at
specific inputs. -/

/-- A match predicate under which no pattern matches any description. -/
def noMatch : String → String → Bool := fun _ _ => false

/-- A concrete stand-in for the process-wide string hash. -/
def hashZero : String → Int := fun _ => 0

/-- The 13 columns of a primary-source ("my") CSV export. -/
def myCols : List String :=
  ["Transaction ID", "Posting Date", "Effective Date", "Transaction Type",
   "Amount", "Check Number", "Reference Number", "Description",
   "Transaction Category", "Type", "Balance", "Memo", "Extended Description"]

/-- A well-formed primary row with a pre-existing raw category. -/
def myGoodRow : RawRow :=
  [("Transaction ID", some "T1"), ("Posting Date", some "01/02/2024"),
   ("Effective Date", some "01/02/2024"), ("Transaction Type", some "Debit"),
   ("Amount", some "-12.34"), ("Check Number", none),
   ("Reference Number", some "R1"), ("Description", some "SOMEWHERE"),
   ("Transaction Category", some "Groceries"), ("Type", some "Debit"),
   ("Balance", some "100.00"), ("Memo", none), ("Extended Description", none)]

/-- A primary row whose `Transaction ID` cell is empty (NaN, stored NULL). -/
def myNullIdRow : RawRow :=
  [("Transaction ID", none), ("Posting Date", some "01/02/2024"),
   ("Effective Date", some "01/02/2024"), ("Transaction Type", some "Debit"),
   ("Amount", some "-12.34"), ("Check Number", none),
   ("Reference Number", some "R123"), ("Description", some "COFFEE SHOP"),
   ("Transaction Category", some "Dining"), ("Type", some "Debit"),
   ("Balance", some "100.00"), ("Memo", none), ("Extended Description", none)]

def myGoodTable : CsvTable := ⟨myCols, [myGoodRow]⟩

def myNullIdTable : CsvTable := ⟨myCols, [myNullIdRow]⟩

/-- A primary-kind file missing the required `Transaction ID` column. -/
def badMyTable : CsvTable := ⟨["Description"], [[("Description", some "X")]]⟩

def partnerCols : List String :=
  ["Account Number", "Transaction Description", "Transaction Date",
   "Transaction Type", "Transaction Amount", "Balance"]

def partnerDebitRow : RawRow :=
  [("Account Number", some "111"), ("Transaction Description", some "GOOD ONE"),
   ("Transaction Date", some "3/5/24"), ("Transaction Type", some "Debit"),
   ("Transaction Amount", some "100.00"), ("Balance", some "1,000.00")]

/-- A partner row whose date cannot be parsed (month 13). -/
def partnerBadDateRow : RawRow :=
  [("Account Number", some "111"), ("Transaction Description", some "BAD DATE"),
   ("Transaction Date", some "13/45/99"), ("Transaction Type", some "Debit"),
   ("Transaction Amount", some "10.00"), ("Balance", some "900.00")]

def partnerCreditRow : RawRow :=
  [("Account Number", some "111"), ("Transaction Description", some "GOOD TWO"),
   ("Transaction Date", some "3/6/24"), ("Transaction Type", some "credit"),
   ("Transaction Amount", some "50"), ("Balance", some "950.00")]

/-- Three partner rows whose middle row has an unparseable date. -/
def partnerAbortTable : CsvTable :=
  ⟨partnerCols, [partnerDebitRow, partnerBadDateRow, partnerCreditRow]⟩

def cardCols : List String :=
  ["Transaction Date", "Posted Date", "Card No.", "Description", "Category",
   "Debit", "Credit"]

def cardDebitRow : RawRow :=
  [("Transaction Date", some "2024-03-05"), ("Posted Date", some "2024-03-06"),
   ("Card No.", some "1234"), ("Description", some "STORE PURCHASE"),
   ("Category", some "Shopping"), ("Debit", some "25.00"), ("Credit", none)]

def cardCreditRow : RawRow :=
  [("Transaction Date", some "2024-03-07"), ("Posted Date", some "2024-03-08"),
   ("Card No.", some "1234"), ("Description", some "REFUND"),
   ("Category", some "Shopping"), ("Debit", none), ("Credit", some "10.00")]

/-- A stored record whose `reference_number` is NULL (as produced by the
primary path from a row with an empty `Reference Number` cell). -/
def nullRefRec : CanonicalRecord :=
  { transaction_id := SqlVal.str "X1"
    posting_date := SqlVal.str "01/02/2024"
    effective_date := SqlVal.str "01/02/2024"
    transaction_type := SqlVal.str "Debit"
    amount := SqlVal.str "-5.00"
    check_number := SqlVal.null
    reference_number := SqlVal.null
    description := SqlVal.str "SHOP"
    transaction_category := SqlVal.str "Misc"
    type := SqlVal.str "Debit"
    balance := SqlVal.str "10.00"
    memo := SqlVal.null
    extended_description := SqlVal.null
    account_owner := SqlVal.null }

/-- A stored record with fully non-null duplicate key. -/
def strKeyRec : CanonicalRecord :=
  { transaction_id := SqlVal.str "T9"
    posting_date := SqlVal.str "01/02/2024"
    effective_date := SqlVal.str "01/02/2024"
    transaction_type := SqlVal.str "Credit"
    amount := SqlVal.str "7.00"
    check_number := SqlVal.null
    reference_number := SqlVal.str "R9"
    description := SqlVal.str "PAYCHECK"
    transaction_category := SqlVal.str "Income"
    type := SqlVal.str "Credit"
    balance := SqlVal.str "107.00"
    memo := SqlVal.null
    extended_description := SqlVal.null
    account_owner := SqlVal.str "Connor" }

/-! ## Inversion helper for the exception monad -/

theorem bind_ok_inv {α β : Type} {x : Except String α} {f : α → Except String β} {b : β}
    (h : x >>= f = Except.ok b) : ∃ a, x = Except.ok a ∧ f a = Except.ok b := by
  cases x with
  | error e => simp [Bind.bind, Except.bind, Pure.pure, Except.pure] at h
  | ok a => exact ⟨a, rfl, by simpa [Bind.bind, Except.bind, Pure.pure, Except.pure] using h⟩

/-- An all-absent amount row for the card adapter (Debit and Credit both
NaN). -/
def cardEmptyRow : RawRow :=
  [("Transaction Date", some "2024-03-09"), ("Posted Date", some "2024-03-10"),
   ("Card No.", some "1234"), ("Description", some "ADJUSTMENT"),
   ("Category", some "Other"), ("Debit", none), ("Credit", none)]

/-- Records produced by the partner adapter always carry non-null
synthesized transaction_id and reference_number. -/
theorem partner_ok_keys (search : String → String → Bool) (hashFn : String → Int)
    (mappings : List (String × String)) (row : RawRow) (rec : CanonicalRecord)
    (h : TransactionProcessor.process_partner_transaction search hashFn mappings row =
      Except.ok rec) :
    rec.transaction_id.notNull = true ∧ rec.reference_number.notNull = true := by
  unfold TransactionProcessor.process_partner_transaction at h
  obtain ⟨dateCell, h1, h⟩ := bind_ok_inv h
  obtain ⟨ds, h2, h⟩ := bind_ok_inv h
  obtain ⟨d, h3, h⟩ := bind_ok_inv h
  obtain ⟨descCell, h4, h⟩ := bind_ok_inv h
  obtain ⟨amtCell, h5, h⟩ := bind_ok_inv h
  obtain ⟨amount0, h6, h⟩ := bind_ok_inv h
  obtain ⟨ttypeCell, h7, h⟩ := bind_ok_inv h
  obtain ⟨ttype, h8, h⟩ := bind_ok_inv h
  obtain ⟨balCell, h9, h⟩ := bind_ok_inv h
  obtain ⟨bal, h10, h⟩ := bind_ok_inv h
  injection h with h
  rw [← h]
  exact ⟨rfl, rfl⟩

/-- Records produced by the card adapter always carry non-null
synthesized transaction_id and reference_number. -/
theorem card_ok_keys (search : String → String → Bool) (hashFn : String → Int)
    (mappings : List (String × String)) (row : RawRow) (rec : CanonicalRecord)
    (h : TransactionProcessor.process_card_transaction search hashFn mappings row =
      Except.ok rec) :
    rec.transaction_id.notNull = true ∧ rec.reference_number.notNull = true := by
  unfold TransactionProcessor.process_card_transaction at h
  obtain ⟨tdCell, h1, h⟩ := bind_ok_inv h
  obtain ⟨tdStr, h2, h⟩ := bind_ok_inv h
  obtain ⟨td, h3, h⟩ := bind_ok_inv h
  obtain ⟨pdCell, h4, h⟩ := bind_ok_inv h
  obtain ⟨pdStr, h5, h⟩ := bind_ok_inv h
  obtain ⟨pdDate, h6, h⟩ := bind_ok_inv h
  obtain ⟨descCell, h7, h⟩ := bind_ok_inv h
  obtain ⟨debitCell, h8, h⟩ := bind_ok_inv h
  obtain ⟨creditCell, h9, h⟩ := bind_ok_inv h
  obtain ⟨amount, h10, h⟩ := bind_ok_inv h
  obtain ⟨cardCell, h11, h⟩ := bind_ok_inv h
  injection h with h
  rw [← h]
  exact ⟨rfl, rfl⟩

/-! ## Claim theorems -/

/-- C4 (counterexample): on a description no pattern matches, the
`transaction_processor.py` classifier returns the sentinel string
"Uncategorized" while the `backend.py` classifier returns none; the
claim that classify returns none whenever no pattern matches is false of
the processor revision. -/
theorem budgetapp_C4_counterexample :
    firstMatchCategory noMatch [] "WALMART" = none ∧
    Backend.categorize_description noMatch [] "WALMART" = none ∧
    TransactionProcessor.categorize_description noMatch [] "WALMART" = "Uncategorized" :=
  ⟨rfl, rfl, rfl⟩

/-- C4 (amended): both classifiers iterate the mapping in its defined
insertion order and return the category of the first pattern whose
case-insensitive search matches; with no match, `backend.py` returns
none while `transaction_processor.py` returns the fixed string
"Uncategorized"; either result depends only on the mapping order and the
description. -/
theorem budgetapp_C4_amended (search : String → String → Bool)
    (mappings : List (String × String)) (d : String) :
    Backend.categorize_description search mappings d = firstMatchCategory search mappings d ∧
    TransactionProcessor.categorize_description search mappings d =
      (firstMatchCategory search mappings d).getD "Uncategorized" :=
  ⟨backend_categorize_eq_firstMatch search mappings d,
    processor_categorize_eq_getD search mappings d⟩

/-- C5 (counterexample): in the processor pipeline, a Primary row whose
description matches no pattern stores the sentinel "Uncategorized", not
the pre-existing raw category field ("Groceries"); the claimed fallback
to the raw field never happens there. -/
theorem budgetapp_C5_counterexample :
    (TransactionProcessor.process_my_transaction noMatch [] myGoodRow).map
        (fun r => r.transaction_category) = Except.ok (SqlVal.str "Uncategorized") ∧
    myGoodRow.lookup "Transaction Category" = some (some "Groceries") ∧
    firstMatchCategory noMatch [] "SOMEWHERE" = none ∧
    SqlVal.str "Uncategorized" ≠ SqlVal.str "Groceries" := by
  refine ⟨rfl, rfl, rfl, by simp⟩

/-- C5 (amended): for a Primary row, the legacy `backend.py` pipeline
stores the rule-engine result when it is non-empty and otherwise falls
back to the raw `Transaction Category` cell; the processor pipeline
stores the first-match result when one exists (falling back to the raw
cell only when the matched label is the empty string) and stores the
fixed sentinel "Uncategorized" — never the raw cell — when no pattern
matches. -/
theorem budgetapp_C5_amended (search : String → String → Bool)
    (mappings : List (String × String)) (d : String) (row : RawRow) (rawCat : Cell)
    (hraw : row.lookup "Transaction Category" = some rawCat) :
    (∀ c, firstMatchCategory search mappings d = some c → c ≠ "" →
      Backend.resolveCategory search mappings (some d) row = Except.ok (SqlVal.str c) ∧
      TransactionProcessor.myCategoryValue search mappings (some d) row =
        Except.ok (SqlVal.str c)) ∧
    (firstMatchCategory search mappings d = none →
      Backend.resolveCategory search mappings (some d) row = Except.ok (cellToSql rawCat) ∧
      TransactionProcessor.myCategoryValue search mappings (some d) row =
        Except.ok (SqlVal.str "Uncategorized")) ∧
    (firstMatchCategory search mappings d = some "" →
      Backend.resolveCategory search mappings (some d) row = Except.ok (cellToSql rawCat) ∧
      TransactionProcessor.myCategoryValue search mappings (some d) row =
        Except.ok (cellToSql rawCat)) := by
  cases mappings with
  | nil =>
    refine ⟨?_, ?_, ?_⟩
    · intro c hc
      simp [firstMatchCategory] at hc
    · intro _
      constructor
      · simp [Backend.resolveCategory, Backend.categorize_cell, Bind.bind, Except.bind, Pure.pure, Except.pure,
          getCell, hraw]
      · simp [TransactionProcessor.myCategoryValue, TransactionProcessor.categorize_cell,
          Bind.bind, Except.bind, Pure.pure, Except.pure]
    · intro hc
      simp [firstMatchCategory] at hc
  | cons p ms =>
    have hb : Backend.categorize_cell search (p :: ms) (some d) =
        Except.ok (firstMatchCategory search (p :: ms) d) := by
      simp [Backend.categorize_cell, backend_categorize_eq_firstMatch]
    have hp : TransactionProcessor.categorize_cell search (p :: ms) (some d) =
        Except.ok ((firstMatchCategory search (p :: ms) d).getD "Uncategorized") := by
      simp [TransactionProcessor.categorize_cell, processor_categorize_eq_getD]
    refine ⟨?_, ?_, ?_⟩
    · intro c hc hcne
      constructor
      · simp [Backend.resolveCategory, hb, hc, hcne, Bind.bind, Except.bind, Pure.pure, Except.pure]
      · simp [TransactionProcessor.myCategoryValue, hp, hc, hcne, Bind.bind, Except.bind, Pure.pure, Except.pure]
    · intro hc
      constructor
      · simp [Backend.resolveCategory, hb, hc, Bind.bind, Except.bind, Pure.pure, Except.pure, getCell, hraw]
      · simp [TransactionProcessor.myCategoryValue, hp, hc, Bind.bind, Except.bind, Pure.pure, Except.pure]
    · intro hc
      constructor
      · simp [Backend.resolveCategory, hb, hc, Bind.bind, Except.bind, Pure.pure, Except.pure, getCell, hraw]
      · simp [TransactionProcessor.myCategoryValue, hp, hc, Bind.bind, Except.bind, Pure.pure, Except.pure, getCell,
          hraw]

/-- C5 (witness): concrete application — with an empty mapping (nothing
matches) the backend path stores the raw "Groceries" cell while the
processor path stores the sentinel "Uncategorized". -/
theorem budgetapp_C5_witness :
    myGoodRow.lookup "Transaction Category" = some (some "Groceries") ∧
    Backend.resolveCategory noMatch [] (some "SOMEWHERE") myGoodRow =
      Except.ok (cellToSql (some "Groceries")) ∧
    TransactionProcessor.myCategoryValue noMatch [] (some "SOMEWHERE") myGoodRow =
      Except.ok (SqlVal.str "Uncategorized") :=
  ⟨rfl,
    ((budgetapp_C5_amended noMatch [] "SOMEWHERE" myGoodRow (some "Groceries") rfl).2.1
      rfl).1,
    ((budgetapp_C5_amended noMatch [] "SOMEWHERE" myGoodRow (some "Groceries") rfl).2.1
      rfl).2⟩

/-- C10 (confirmed): the duplicate-existence probe with a NULL
reference_number never matches any stored row (SQL equality with NULL is
never true), so such a record is never counted as a duplicate and its
insertion is attempted on every run; under the pair-unique constraint of
`backend.py` the insert also always succeeds, even when an identical row
is already stored. -/
theorem budgetapp_C10 (S : Store) (tid : SqlVal)
    (conflict : CanonicalRecord → CanonicalRecord → Bool)
    (st : Store × RunCounts) (r : CanonicalRecord)
    (href : r.reference_number = SqlVal.null) :
    existsCheck S tid SqlVal.null = false ∧
    (processRow conflict st r).2.duplicates = st.2.duplicates ∧
    insertRejected backendConflict st.1 r = false ∧
    processRow backendConflict st r =
      (st.1 ++ [r], { st.2 with newRecords := st.2.newRecords + 1 }) := by
  have hex : ∀ (T : Store) (t : SqlVal), existsCheck T t SqlVal.null = false := by
    intro T t
    rw [existsCheck, List.any_eq_false]
    intro x _
    simp [SqlVal.sqlEq_null_right]
  have hrej : insertRejected backendConflict st.1 r = false := by
    rw [insertRejected, List.any_eq_false]
    intro x _
    simp [backendConflict, href, SqlVal.sqlEq_null_right]
  refine ⟨hex S tid, ?_, hrej, ?_⟩
  · unfold processRow
    rw [href, hex st.1 r.transaction_id]
    by_cases h2 : insertRejected conflict st.1 r <;> simp [h2]
  · unfold processRow
    rw [href, hex st.1 r.transaction_id, hrej]
    simp

/-- C10 (witness): a record with NULL reference_number already stored is
still not matched by the probe, and re-processing it appends a second
copy and counts it as new under the pair-unique schema. -/
theorem budgetapp_C10_witness :
    nullRefRec.reference_number = SqlVal.null ∧
    existsCheck [nullRefRec] nullRefRec.transaction_id SqlVal.null = false ∧
    processRow backendConflict ([nullRefRec], ⟨0, 0⟩) nullRefRec =
      ([nullRefRec, nullRefRec], ⟨1, 0⟩) :=
  ⟨rfl,
    (budgetapp_C10 [nullRefRec] nullRefRec.transaction_id backendConflict
      ([nullRefRec], ⟨0, 0⟩) nullRefRec rfl).1,
    (budgetapp_C10 [nullRefRec] nullRefRec.transaction_id backendConflict
      ([nullRefRec], ⟨0, 0⟩) nullRefRec rfl).2.2.2⟩

/-- C6 (confirmed): for a Partner row, after comma-stripping and decimal
parsing of the raw amount, a transaction-type of "debit"
(case-insensitively) forces the stored amount to the negated absolute
value and "credit" forces the absolute value, regardless of the raw
sign. -/
theorem budgetapp_C6 (search : String → String → Bool) (hashFn : String → Int)
    (mappings : List (String × String)) (row : RawRow)
    (ds amtS ttype balS : String) (descCell : Cell) (d : PDate) (q b : ℚ)
    (hdate : row.lookup "Transaction Date" = some (some ds))
    (hd : strptimeMDY ds = Except.ok d)
    (hdesc : row.lookup "Transaction Description" = some descCell)
    (hamt : row.lookup "Transaction Amount" = some (some amtS))
    (hq : parseFloat (stripCommas amtS) = Except.ok q)
    (httype : row.lookup "Transaction Type" = some (some ttype))
    (hbal : row.lookup "Balance" = some (some balS))
    (hb : parseFloat (stripCommas balS) = Except.ok b) :
    (pyLower ttype = "debit" →
      (TransactionProcessor.process_partner_transaction search hashFn mappings row).map
        (fun r => r.amount) = Except.ok (SqlVal.real (-|q|))) ∧
    (pyLower ttype = "credit" →
      (TransactionProcessor.process_partner_transaction search hashFn mappings row).map
        (fun r => r.amount) = Except.ok (SqlVal.real |q|)) := by
  constructor
  · intro hlow
    simp [TransactionProcessor.process_partner_transaction, getCell, hdate, hdesc, hamt,
      httype, hbal, hd, hq, hb, Cell.asStr, Cell.pyStr, Bind.bind, Except.bind, Pure.pure,
      Except.pure, Except.map, hlow]
  · intro hlow
    simp [TransactionProcessor.process_partner_transaction, getCell, hdate, hdesc, hamt,
      httype, hbal, hd, hq, hb, Cell.asStr, Cell.pyStr, Bind.bind, Except.bind, Pure.pure,
      Except.pure, Except.map, hlow]

/-- C6 (witness): transaction-type "Debit" with raw amount "100.00"
yields -100.00, and "credit" with raw amount "50" yields +50.00. -/
theorem budgetapp_C6_witness :
    pyLower "Debit" = "debit" ∧
    (TransactionProcessor.process_partner_transaction noMatch hashZero [] partnerDebitRow).map
      (fun r => r.amount) = Except.ok (SqlVal.real (-100)) ∧
    pyLower "credit" = "credit" ∧
    (TransactionProcessor.process_partner_transaction noMatch hashZero [] partnerCreditRow).map
      (fun r => r.amount) = Except.ok (SqlVal.real 50) := by
  have h100 : parseFloat (stripCommas "100.00") = Except.ok 100 := by
    have h : parseFloat (stripCommas "100.00") =
        Except.ok ((digitsToNat ('1' :: '0' :: '0' :: []) : ℚ) +
          (digitsToNat ('0' :: '0' :: []) : ℚ) /
            (10 : ℚ) ^ (('0' :: '0' :: ([] : List Char)).length)) := rfl
    rw [h]
    norm_num [digitsToNat, show Char.toNat '1' = 49 from rfl, show Char.toNat '0' = 48 from rfl]
  have h1000 : parseFloat (stripCommas "1,000.00") = Except.ok 1000 := by
    have h : parseFloat (stripCommas "1,000.00") =
        Except.ok ((digitsToNat ('1' :: '0' :: '0' :: '0' :: []) : ℚ) +
          (digitsToNat ('0' :: '0' :: []) : ℚ) /
            (10 : ℚ) ^ (('0' :: '0' :: ([] : List Char)).length)) := rfl
    rw [h]
    norm_num [digitsToNat, show Char.toNat '1' = 49 from rfl, show Char.toNat '0' = 48 from rfl]
  have h50 : parseFloat (stripCommas "50") = Except.ok 50 := by
    have h : parseFloat (stripCommas "50") =
        Except.ok ((digitsToNat ('5' :: '0' :: []) : ℚ)) := rfl
    rw [h]
    norm_num [digitsToNat, show Char.toNat '5' = 53 from rfl, show Char.toNat '0' = 48 from rfl]
  have h950 : parseFloat (stripCommas "950.00") = Except.ok 950 := by
    have h : parseFloat (stripCommas "950.00") =
        Except.ok ((digitsToNat ('9' :: '5' :: '0' :: []) : ℚ) +
          (digitsToNat ('0' :: '0' :: []) : ℚ) /
            (10 : ℚ) ^ (('0' :: '0' :: ([] : List Char)).length)) := rfl
    rw [h]
    norm_num [digitsToNat, show Char.toNat '9' = 57 from rfl, show Char.toNat '5' = 53 from rfl,
      show Char.toNat '0' = 48 from rfl]
  refine ⟨rfl, ?_, rfl, ?_⟩
  · have hmain := (budgetapp_C6 noMatch hashZero [] partnerDebitRow
      "3/5/24" "100.00" "Debit" "1,000.00" (some "GOOD ONE") ⟨2024, 3, 5⟩ 100 1000
      rfl rfl rfl rfl h100 rfl rfl h1000).1 rfl
    rw [hmain]
    norm_num
  · have hmain := (budgetapp_C6 noMatch hashZero [] partnerCreditRow
      "3/6/24" "50" "credit" "950.00" (some "GOOD TWO") ⟨2024, 3, 6⟩ 50 950
      rfl rfl rfl rfl h50 rfl rfl h950).2 rfl
    rw [hmain]
    norm_num

/-- C7 (confirmed): for a Card row, a present debit value yields its
negated absolute value, else a present credit value yields its absolute
value, else the amount is 0; the stored transaction_type (and type) are
derived solely from the sign of the resulting amount, and the balance is
always NULL. -/
theorem budgetapp_C7 (search : String → String → Bool) (hashFn : String → Int)
    (mappings : List (String × String)) (row : RawRow)
    (tdS pdS : String) (td pd : PDate) (descCell debitCell creditCell cardCell : Cell)
    (htd : row.lookup "Transaction Date" = some (some tdS))
    (htdp : strptimeISO tdS = Except.ok td)
    (hpd : row.lookup "Posted Date" = some (some pdS))
    (hpdp : strptimeISO pdS = Except.ok pd)
    (hdesc : row.lookup "Description" = some descCell)
    (hdeb : row.lookup "Debit" = some debitCell)
    (hcre : row.lookup "Credit" = some creditCell)
    (hcard : row.lookup "Card No." = some cardCell) :
    (∀ s q, debitCell = some s → parseFloat (stripCommas s) = Except.ok q →
      (TransactionProcessor.process_card_transaction search hashFn mappings row).map
        (fun r => (r.amount, r.transaction_type, r.type, r.balance)) =
      Except.ok (SqlVal.real (-|q|),
        SqlVal.str (if (-|q| : ℚ) < 0 then "Debit" else "Credit"),
        SqlVal.str (if (-|q| : ℚ) < 0 then "Debit" else "Credit"), SqlVal.null)) ∧
    (debitCell = none → ∀ s q, creditCell = some s →
      parseFloat (stripCommas s) = Except.ok q →
      (TransactionProcessor.process_card_transaction search hashFn mappings row).map
        (fun r => (r.amount, r.transaction_type, r.type, r.balance)) =
      Except.ok (SqlVal.real |q|,
        SqlVal.str (if (|q| : ℚ) < 0 then "Debit" else "Credit"),
        SqlVal.str (if (|q| : ℚ) < 0 then "Debit" else "Credit"), SqlVal.null)) ∧
    (debitCell = none → creditCell = none →
      (TransactionProcessor.process_card_transaction search hashFn mappings row).map
        (fun r => (r.amount, r.transaction_type, r.type, r.balance)) =
      Except.ok (SqlVal.real 0, SqlVal.str "Credit", SqlVal.str "Credit", SqlVal.null)) := by
  refine ⟨?_, ?_, ?_⟩
  · intro s q hs hq
    subst hs
    simp [TransactionProcessor.process_card_transaction, TransactionProcessor.cardAmount, getCell, htd, htdp,
      hpd, hpdp, hdesc, hdeb, hcre, hcard, hq, Cell.asStr, Cell.pyStr, Cell.notna,
      Bind.bind, Except.bind, Pure.pure, Except.pure, Except.map]
  · intro hdn s q hs hq
    subst hdn
    subst hs
    simp [TransactionProcessor.process_card_transaction, TransactionProcessor.cardAmount, getCell, htd, htdp,
      hpd, hpdp, hdesc, hdeb, hcre, hcard, hq, Cell.asStr, Cell.pyStr, Cell.notna,
      Bind.bind, Except.bind, Pure.pure, Except.pure, Except.map]
  · intro hdn hcn
    subst hdn
    subst hcn
    simp [TransactionProcessor.process_card_transaction, TransactionProcessor.cardAmount, getCell, htd, htdp,
      hpd, hpdp, hdesc, hdeb, hcre, hcard, Cell.asStr, Cell.pyStr, Cell.notna,
      Bind.bind, Except.bind, Pure.pure, Except.pure, Except.map]

/-- C7 (witness): debit "25.00" yields amount -25.00 and type "Debit";
credit "10.00" yields +10.00 and "Credit"; both absent yields 0 and
"Credit"; the balance is NULL in all three. -/
theorem budgetapp_C7_witness :
    (TransactionProcessor.process_card_transaction noMatch hashZero [] cardDebitRow).map
      (fun r => (r.amount, r.transaction_type, r.type, r.balance)) =
      Except.ok (SqlVal.real (-25), SqlVal.str "Debit", SqlVal.str "Debit", SqlVal.null) ∧
    (TransactionProcessor.process_card_transaction noMatch hashZero [] cardCreditRow).map
      (fun r => (r.amount, r.transaction_type, r.type, r.balance)) =
      Except.ok (SqlVal.real 10, SqlVal.str "Credit", SqlVal.str "Credit", SqlVal.null) ∧
    (TransactionProcessor.process_card_transaction noMatch hashZero [] cardEmptyRow).map
      (fun r => (r.amount, r.transaction_type, r.type, r.balance)) =
      Except.ok (SqlVal.real 0, SqlVal.str "Credit", SqlVal.str "Credit", SqlVal.null) := by
  have h25 : parseFloat (stripCommas "25.00") = Except.ok 25 := by
    have h : parseFloat (stripCommas "25.00") =
        Except.ok ((digitsToNat ('2' :: '5' :: []) : ℚ) +
          (digitsToNat ('0' :: '0' :: []) : ℚ) /
            (10 : ℚ) ^ (('0' :: '0' :: ([] : List Char)).length)) := rfl
    rw [h]
    norm_num [digitsToNat, show Char.toNat '2' = 50 from rfl, show Char.toNat '5' = 53 from rfl,
      show Char.toNat '0' = 48 from rfl]
  have h10 : parseFloat (stripCommas "10.00") = Except.ok 10 := by
    have h : parseFloat (stripCommas "10.00") =
        Except.ok ((digitsToNat ('1' :: '0' :: []) : ℚ) +
          (digitsToNat ('0' :: '0' :: []) : ℚ) /
            (10 : ℚ) ^ (('0' :: '0' :: ([] : List Char)).length)) := rfl
    rw [h]
    norm_num [digitsToNat, show Char.toNat '1' = 49 from rfl, show Char.toNat '0' = 48 from rfl]
  refine ⟨?_, ?_, ?_⟩
  · have hmain := (budgetapp_C7 noMatch hashZero [] cardDebitRow
      "2024-03-05" "2024-03-06" ⟨2024, 3, 5⟩ ⟨2024, 3, 6⟩
      (some "STORE PURCHASE") (some "25.00") none (some "1234")
      rfl rfl rfl rfl rfl rfl rfl rfl).1 "25.00" 25 rfl h25
    rw [hmain]
    norm_num
  · have hmain := (budgetapp_C7 noMatch hashZero [] cardCreditRow
      "2024-03-07" "2024-03-08" ⟨2024, 3, 7⟩ ⟨2024, 3, 8⟩
      (some "REFUND") none (some "10.00") (some "1234")
      rfl rfl rfl rfl rfl rfl rfl rfl).2.1 rfl "10.00" 10 rfl h10
    rw [hmain]
    norm_num
  · exact (budgetapp_C7 noMatch hashZero [] cardEmptyRow
      "2024-03-09" "2024-03-10" ⟨2024, 3, 9⟩ ⟨2024, 3, 10⟩
      (some "ADJUSTMENT") none none (some "1234")
      rfl rfl rfl rfl rfl rfl rfl rfl).2.2 rfl rfl

/-- C8 (confirmed): for a Partner row, the synthesized transaction_id
and reference_number are the same string, equal to "P_" followed by the
YYYYMMDD-formatted transaction date, an underscore, and the absolute
value of the hash of the description text. -/
theorem budgetapp_C8 (search : String → String → Bool) (hashFn : String → Int)
    (mappings : List (String × String)) (row : RawRow)
    (ds amtS ttype balS : String) (descCell : Cell) (d : PDate) (q b : ℚ)
    (hdate : row.lookup "Transaction Date" = some (some ds))
    (hd : strptimeMDY ds = Except.ok d)
    (hdesc : row.lookup "Transaction Description" = some descCell)
    (hamt : row.lookup "Transaction Amount" = some (some amtS))
    (hq : parseFloat (stripCommas amtS) = Except.ok q)
    (httype : row.lookup "Transaction Type" = some (some ttype))
    (hbal : row.lookup "Balance" = some (some balS))
    (hb : parseFloat (stripCommas balS) = Except.ok b) :
    (TransactionProcessor.process_partner_transaction search hashFn mappings row).map
      (fun r => (r.transaction_id, r.reference_number)) =
    Except.ok
      (SqlVal.str ("P_" ++ fmtYYYYMMDD d ++ "_" ++ toString (Int.natAbs (hashFn descCell.pyStr))),
       SqlVal.str ("P_" ++ fmtYYYYMMDD d ++ "_" ++ toString (Int.natAbs (hashFn descCell.pyStr)))) := by
  simp [TransactionProcessor.process_partner_transaction, getCell, hdate, hdesc, hamt,
    httype, hbal, hd, hq, hb, Cell.asStr, Cell.pyStr, Bind.bind, Except.bind, Pure.pure,
    Except.pure, Except.map]

/-- C8 (witness): the partner debit sample row with the concrete hash
stand-in yields the identical pair "P_20240305_0" in both fields. -/
theorem budgetapp_C8_witness :
    (TransactionProcessor.process_partner_transaction noMatch hashZero [] partnerDebitRow).map
      (fun r => (r.transaction_id, r.reference_number)) =
    Except.ok (SqlVal.str "P_20240305_0", SqlVal.str "P_20240305_0") := by
  have h100 : parseFloat (stripCommas "100.00") = Except.ok 100 := by
    have h : parseFloat (stripCommas "100.00") =
        Except.ok ((digitsToNat ('1' :: '0' :: '0' :: []) : ℚ) +
          (digitsToNat ('0' :: '0' :: []) : ℚ) /
            (10 : ℚ) ^ (('0' :: '0' :: ([] : List Char)).length)) := rfl
    rw [h]
    norm_num [digitsToNat, show Char.toNat '1' = 49 from rfl, show Char.toNat '0' = 48 from rfl]
  have h1000 : parseFloat (stripCommas "1,000.00") = Except.ok 1000 := by
    have h : parseFloat (stripCommas "1,000.00") =
        Except.ok ((digitsToNat ('1' :: '0' :: '0' :: '0' :: []) : ℚ) +
          (digitsToNat ('0' :: '0' :: []) : ℚ) /
            (10 : ℚ) ^ (('0' :: '0' :: ([] : List Char)).length)) := rfl
    rw [h]
    norm_num [digitsToNat, show Char.toNat '1' = 49 from rfl, show Char.toNat '0' = 48 from rfl]
  have hmain := budgetapp_C8 noMatch hashZero [] partnerDebitRow
    "3/5/24" "100.00" "Debit" "1,000.00" (some "GOOD ONE") ⟨2024, 3, 5⟩ 100 1000
    rfl rfl rfl rfl h100 rfl rfl h1000
  rw [hmain]
  rfl

/-- C1 (counterexample): a primary-source file whose single row has an
empty Transaction ID cell defeats idempotence under the schema of the
processor driver: the duplicate check never matches the NULL key, SQLite
accepts repeated NULLs in the TEXT primary key, and a second run over
the same file inserts the row again (1 new record, store grows). -/
theorem budgetapp_C1_counterexample :
    (processCsv loadConflict noMatch hashZero [] "my" myNullIdTable []).2 =
      FileOutcome.completed ⟨1, 0⟩ ∧
    (processCsv loadConflict noMatch hashZero [] "my" myNullIdTable
        (processCsv loadConflict noMatch hashZero [] "my" myNullIdTable []).1).2 =
      FileOutcome.completed ⟨1, 0⟩ ∧
    (processCsv loadConflict noMatch hashZero [] "my" myNullIdTable
        (processCsv loadConflict noMatch hashZero [] "my" myNullIdTable []).1).1 ≠
      (processCsv loadConflict noMatch hashZero [] "my" myNullIdTable []).1 :=
  ⟨by decide, by decide, by decide⟩

/-- C1 (amended): ingestion is idempotent for records whose
transaction_id and reference_number are both non-null — re-running the
same record sequence against the once-ingested store changes nothing and
counts zero new records, for any insert-conflict rule; Partner and Card
records always satisfy the non-null condition because their keys are
synthesized strings, while a Primary record with a null key component is
re-attempted on every run (C10). -/
theorem budgetapp_C1_amended (conflict : CanonicalRecord → CanonicalRecord → Bool)
    (recs : List CanonicalRecord) (S : Store)
    (h : ∀ r ∈ recs, r.transaction_id.notNull = true ∧ r.reference_number.notNull = true) :
    ingestStore conflict recs (ingestStore conflict recs S) = ingestStore conflict recs S ∧
    (processRecords conflict recs (ingestStore conflict recs S, ⟨0, 0⟩)).2.newRecords = 0 ∧
    (∀ search hashFn mappings row rec,
      TransactionProcessor.process_partner_transaction search hashFn mappings row =
        Except.ok rec →
      rec.transaction_id.notNull = true ∧ rec.reference_number.notNull = true) ∧
    (∀ search hashFn mappings row rec,
      TransactionProcessor.process_card_transaction search hashFn mappings row =
        Except.ok rec →
      rec.transaction_id.notNull = true ∧ rec.reference_number.notNull = true) := by
  have hset : ∀ r ∈ recs, settledRec conflict (ingestStore conflict recs S) r :=
    processRecords_settles_all conflict recs (S, ⟨0, 0⟩) h
  have hnoop := processRecords_noop_of_settled conflict recs
    (ingestStore conflict recs S, ⟨0, 0⟩) hset
  refine ⟨hnoop.1, hnoop.2, ?_, ?_⟩
  · intro search hashFn mappings row rec hrec
    exact partner_ok_keys search hashFn mappings row rec hrec
  · intro search hashFn mappings row rec hrec
    exact card_ok_keys search hashFn mappings row rec hrec

/-- C1 (witness): one fully non-null record is ingested once; running
the same ingestion again leaves the store unchanged with zero new
records. -/
theorem budgetapp_C1_witness :
    (∀ r ∈ [strKeyRec],
      r.transaction_id.notNull = true ∧ r.reference_number.notNull = true) ∧
    ingestStore backendConflict [strKeyRec] (ingestStore backendConflict [strKeyRec] []) =
      ingestStore backendConflict [strKeyRec] [] ∧
    (processRecords backendConflict [strKeyRec]
      (ingestStore backendConflict [strKeyRec] [], ⟨0, 0⟩)).2.newRecords = 0 :=
  ⟨by decide,
    (budgetapp_C1_amended backendConflict [strKeyRec] [] (by decide)).1,
    (budgetapp_C1_amended backendConflict [strKeyRec] [] (by decide)).2.1⟩

/-- C2 (counterexample): the `load_transactions.py` CREATE TABLE carries
no uniqueness constraint on (transaction_id, reference_number) — it keys
the table on transaction_id alone — and under the pair-unique schema of
`backend.py` a record with a NULL reference_number can be stored twice
within one ingestion run, leaving two rows with identical
transaction_id and reference_number values. -/
theorem budgetapp_C2_counterexample :
    hasPairUniqueConstraint loadTransactionsSchema = false ∧
    ingestStore backendConflict [nullRefRec, nullRefRec] [] = [nullRefRec, nullRefRec] ∧
    nullRefRec.transaction_id = SqlVal.str "X1" ∧
    nullRefRec.reference_number = SqlVal.null :=
  ⟨by decide, by decide, rfl, rfl⟩

/-- C2 (amended): the `backend.py` table carries
UNIQUE(transaction_id, reference_number) while the
`load_transactions.py` table declares transaction_id alone as PRIMARY
KEY with no pair constraint; the duplicate check keys on exactly the
(transaction_id, reference_number) pair; ingestion runs compose; and in
every store reachable from empty by ingestion no two rows share a fully
non-null duplicate key. -/
theorem budgetapp_C2_amended :
    hasPairUniqueConstraint backendTransactionsSchema = true ∧
    loadTransactionsSchema.uniques = [] ∧
    (loadTransactionsSchema.columns.filter fun c => c.isPrimaryKey).map
      (fun c => c.name) = ["transaction_id"] ∧
    (∀ (S : Store) (tid ref : SqlVal),
      existsCheck S tid ref =
        (S.map fun r => (r.transaction_id, r.reference_number)).any
          fun p => p.1.sqlEq tid && p.2.sqlEq ref) ∧
    (∀ (conflict : CanonicalRecord → CanonicalRecord → Bool)
        (recs : List CanonicalRecord),
      noSharedPair (ingestStore conflict recs [])) ∧
    (∀ (conflict : CanonicalRecord → CanonicalRecord → Bool)
        (l1 l2 : List CanonicalRecord) (S : Store),
      ingestStore conflict (l1 ++ l2) S =
        ingestStore conflict l2 (ingestStore conflict l1 S)) := by
  refine ⟨by decide, by decide, by decide, ?_, ?_, ingestStore_append⟩
  · intro S tid ref
    induction S with
    | nil => rfl
    | cons a l ih =>
      simp only [existsCheck, List.any_cons, List.map_cons] at *
      rw [ih]
  · intro conflict recs
    exact processRecords_preserves_noSharedPair conflict recs ([], ⟨0, 0⟩) List.Pairwise.nil

/-- C3 (counterexample): in a three-row partner file whose middle row
has an unparseable date, only the first row is ingested: the adapter
exception is logged and re-raised by `process_csv`, aborting the file at
row index 1, so the well-formed third row ("GOOD TWO") is never
processed — contradicting the claim that the remaining rows still
ingest. -/
theorem budgetapp_C3_counterexample :
    (processCsv loadConflict noMatch hashZero [] "partner" partnerAbortTable []).1.map
      (fun r => r.description) = [SqlVal.str "GOOD ONE"] ∧
    (processCsv loadConflict noMatch hashZero [] "partner" partnerAbortTable []).2 =
      FileOutcome.abortedRowError 1 "ValueError: day is out of range: 13/45/99" :=
  ⟨by decide, by decide⟩

/-- C3 (amended): row-level failure isolation holds only for the INSERT:
a storage rejection is logged and the loop continues with the next row
of the same file; an adapter exception instead aborts the file at that
row — rows before it stay committed, rows after it are never processed
(the outcome records the failing row index and message). -/
theorem budgetapp_C3_amended (conflict : CanonicalRecord → CanonicalRecord → Bool)
    (adapter : RawRow → Except String CanonicalRecord) :
    (∀ row rest idx st rec, adapter row = Except.ok rec →
      existsCheck st.1 rec.transaction_id rec.reference_number = false →
      insertRejected conflict st.1 rec = true →
      processRowsLoop conflict adapter (row :: rest) idx st =
        processRowsLoop conflict adapter rest (idx + 1) st) ∧
    (∀ pre bad post msg idx st, adapter bad = Except.error msg →
      processRowsLoop conflict adapter (pre ++ bad :: post) idx st =
        processRowsLoop conflict adapter (pre ++ [bad]) idx st) ∧
    (∀ bad rest msg idx st, adapter bad = Except.error msg →
      processRowsLoop conflict adapter (bad :: rest) idx st =
        (st.1, FileOutcome.abortedRowError idx msg)) := by
  refine ⟨?_, ?_, ?_⟩
  · intro row rest idx st rec hrec hex hrej
    simp only [processRowsLoop, hrec]
    have : processRow conflict st rec = st := by
      unfold processRow
      rw [hex, hrej]
      simp
    rw [this]
  · intro pre bad post msg idx st hbad
    induction pre generalizing idx st with
    | nil =>
      simp only [List.nil_append, processRowsLoop, hbad]
    | cons r pre ih =>
      simp only [List.cons_append, processRowsLoop]
      cases hr : adapter r with
      | error e => rfl
      | ok rec => exact ih (idx + 1) (processRow conflict st rec)
  · intro bad rest msg idx st hbad
    simp only [processRowsLoop, hbad]

/-- C3 (witness): an insert-rejected row is skipped with the loop
continuing, and a bad-date partner row aborts its file at its own index
with the rows after it unprocessed. -/
theorem budgetapp_C3_witness :
    TransactionProcessor.process_partner_transaction noMatch hashZero [] partnerBadDateRow =
      Except.error "ValueError: day is out of range: 13/45/99" ∧
    processRowsLoop loadConflict
        (TransactionProcessor.process_partner_transaction noMatch hashZero [])
        (partnerBadDateRow :: [partnerCreditRow]) 1 ([], ⟨0, 0⟩) =
      ([], FileOutcome.abortedRowError 1 "ValueError: day is out of range: 13/45/99") ∧
    processRowsLoop loadConflict
        (TransactionProcessor.process_partner_transaction noMatch hashZero [])
        (partnerBadDateRow :: partnerCreditRow :: []) 1 ([], ⟨0, 0⟩) =
      processRowsLoop loadConflict
        (TransactionProcessor.process_partner_transaction noMatch hashZero [])
        (partnerBadDateRow :: []) 1 ([], ⟨0, 0⟩) :=
  ⟨rfl,
    (budgetapp_C3_amended loadConflict
      (TransactionProcessor.process_partner_transaction noMatch hashZero [])).2.2
      partnerBadDateRow [partnerCreditRow]
      "ValueError: day is out of range: 13/45/99" 1 ([], ⟨0, 0⟩) rfl,
    (budgetapp_C3_amended loadConflict
      (TransactionProcessor.process_partner_transaction noMatch hashZero [])).2.1
      [] partnerBadDateRow [partnerCreditRow]
      "ValueError: day is out of range: 13/45/99" 1 ([], ⟨0, 0⟩) rfl⟩

/-- C9 (counterexample): the legacy `backend.py` driver performs no
required-column validation: on a folder whose first file lacks the
`Transaction ID` column it aborts the run with a KeyError at row 0,
ingesting nothing and never reaching the well-formed second file — it
does not log missing columns, process no rows, and continue. -/
theorem budgetapp_C9_counterexample :
    Backend.ingestFolderBackend backendConflict noMatch [] [badMyTable, myGoodTable] [] =
      ([], [FileOutcome.abortedRowError 0 "KeyError: Transaction ID"]) ∧
    (Backend.processCsvBackend backendConflict noMatch [] myGoodTable []).2 =
      FileOutcome.completed ⟨1, 0⟩ :=
  ⟨by decide, by decide⟩

/-- C9 (amended): the processor driver checks the required column set
before any row processing — a file with missing columns is skipped
whole, its missing column names reported, and the folder loop continues
with the remaining files; the legacy `backend.py` driver has no such
check: a file whose rows lack the `Transaction ID` column raises a
KeyError at the first row, which aborts the whole run and skips all
remaining files. -/
theorem budgetapp_C9_amended (conflict : CanonicalRecord → CanonicalRecord → Bool)
    (search : String → String → Bool) (hashFn : String → Int)
    (mappings : List (String × String)) (kind : String) :
    (∀ table store, missingColumns kind table.columns ≠ [] →
      processCsv conflict search hashFn mappings kind table store =
        (store, FileOutcome.skippedMissingColumns (missingColumns kind table.columns))) ∧
    (∀ t rest store, missingColumns kind t.columns ≠ [] →
      ingestFolder conflict search hashFn mappings kind (t :: rest) store =
        ((ingestFolder conflict search hashFn mappings kind rest store).1,
          FileOutcome.skippedMissingColumns (missingColumns kind t.columns) ::
            (ingestFolder conflict search hashFn mappings kind rest store).2)) ∧
    (∀ table store row rest, table.rows = row :: rest →
      row.lookup "Transaction ID" = none →
      Backend.processCsvBackend conflict search mappings table store =
        (store, FileOutcome.abortedRowError 0 "KeyError: Transaction ID")) ∧
    (∀ t more store row rest, t.rows = row :: rest →
      row.lookup "Transaction ID" = none →
      Backend.ingestFolderBackend conflict search mappings (t :: more) store =
        (store, [FileOutcome.abortedRowError 0 "KeyError: Transaction ID"])) := by
  have hskip : ∀ table store, missingColumns kind table.columns ≠ [] →
      processCsv conflict search hashFn mappings kind table store =
        (store, FileOutcome.skippedMissingColumns (missingColumns kind table.columns)) := by
    intro table store hmiss
    simp [processCsv, hmiss]
  have habort : ∀ table store row rest, table.rows = row :: rest →
      row.lookup "Transaction ID" = none →
      Backend.processCsvBackend conflict search mappings table store =
        (store, FileOutcome.abortedRowError 0 "KeyError: Transaction ID") := by
    intro table store row rest hrows hlook
    unfold Backend.processCsvBackend
    rw [hrows]
    simp only [Backend.processRowsBackend, Backend.processRowBackend, getCell, hlook,
      Bind.bind, Except.bind]
    rfl
  refine ⟨hskip, ?_, habort, ?_⟩
  · intro t rest store hmiss
    simp only [ingestFolder, hskip t store hmiss]
  · intro t more store row rest hrows hlook
    simp only [Backend.ingestFolderBackend, habort t store row rest hrows hlook]

/-- C9 (witness): the malformed primary file is skipped whole by the
processor driver with its five missing columns reported and the store
untouched, and the same file aborts the backend pipeline with a
KeyError. -/
theorem budgetapp_C9_witness :
    missingColumns "my" badMyTable.columns =
      ["Transaction ID", "Posting Date", "Effective Date", "Transaction Type", "Amount"] ∧
    processCsv loadConflict noMatch hashZero [] "my" badMyTable [strKeyRec] =
      ([strKeyRec],
        FileOutcome.skippedMissingColumns (missingColumns "my" badMyTable.columns)) ∧
    Backend.processCsvBackend backendConflict noMatch [] badMyTable [] =
      ([], FileOutcome.abortedRowError 0 "KeyError: Transaction ID") :=
  ⟨by decide,
    (budgetapp_C9_amended loadConflict noMatch hashZero [] "my").1 badMyTable [strKeyRec]
      (by decide),
    (budgetapp_C9_amended backendConflict noMatch hashZero [] "my").2.2.1 badMyTable []
      [("Description", some "X")] [] rfl rfl⟩
